import Mathlib

/-!
Verification of the `os_error` crate (`src/lib.rs`): a typed wrapper around a
raw operating-system error code.  The wrapper type `OsError` stores a single
`i32` (embedded as `Int`; no arithmetic is ever performed on it, only storage,
comparison and rendering).  The host platform's standard library is an
out-of-scope collaborator (spec section 6): it supplies the error-kind
classification facility, the human-readable message for a code, and the
thread-local "last error" state.  It is embedded here as an explicit `Host`
value that each host-dependent operation takes as a parameter.
-/

/-- Portable error kinds: the variants of `std::io::ErrorKind` that appear in
the crate's documentation, tests and the spec.  `other` is the generic
catch-all category. -/
inductive ErrorKind where
  | addrInUse
  | notFound
  | permissionDenied
  | wouldBlock
  | interrupted
  | other
deriving DecidableEq

/-- The string `std::fmt::Debug` prints for each `ErrorKind` variant. -/
def ErrorKind.debugStr : ErrorKind → String
  | .addrInUse => "AddrInUse"
  | .notFound => "NotFound"
  | .permissionDenied => "PermissionDenied"
  | .wouldBlock => "WouldBlock"
  | .interrupted => "Interrupted"
  | .other => "Other"

/-- `std::io::Error`: either built from a raw OS error code
(`io::Error::from_raw_os_error`), or a non-OS error carrying only a kind and a
message (`io::Error::new(kind, msg)`). -/
inductive IoError where
  | os (code : Int)
  | simple (kind : ErrorKind) (msg : String)
deriving DecidableEq

/-- `io::Error::raw_os_error`: the raw code when the error came from the OS,
`none` otherwise. -/
def IoError.raw_os_error : IoError → Option Int
  | .os code => some code
  | .simple _ _ => none

/-- The host platform's standard library, the out-of-scope collaborator of
spec section 6: a per-platform classification table, the canonical message
facility, and the thread-local last-error state as observed at call time. -/
structure Host where
  kindTable : List (Int × ErrorKind)
  strerror : Int → String
  lastError : IoError

/-- The host's error-classification facility (`sys::decode_error_kind` behind
`io::Error::kind`): look the code up in the platform table; codes the host
does not recognize fall back to the generic `other` category. -/
def Host.decode_error_kind (h : Host) (c : Int) : ErrorKind :=
  match h.kindTable.lookup c with
  | some k => k
  | none => ErrorKind.other

/-- `io::Error::kind`: OS errors are classified by the host facility, non-OS
errors carry their kind directly. -/
def IoError.kind (h : Host) : IoError → ErrorKind
  | .os code => h.decode_error_kind code
  | .simple k _ => k

/-- `Display` of `std::io::Error`: for an OS error, the host platform's
canonical human-readable message for the code; for a non-OS error, its
message. -/
def IoError.display (h : Host) : IoError → String
  | .os code => h.strerror code
  | .simple _ msg => msg

/-- `io::Error::last_os_error()`: the host constructs an `io::Error` from the
thread-local last-error state.  Reading does not change the state, which the
embedding records by returning the host unchanged. -/
def IoError.last_os_error (h : Host) : IoError × Host :=
  (h.lastError, h)

/-- The crate's wrapper type: `pub struct OsError \x7b code: i32 \x7d`. -/
structure OsError where
  code : Int
deriving DecidableEq

/-- The crate's zero-data failure marker `pub struct NoOsError`. -/
structure NoOsError
deriving DecidableEq

/-- `OsError::new(code)`: wraps the code, no validation. -/
def OsError.new (code : Int) : OsError :=
  { code := code }

/-- `OsError::last_os_error()`:
`OsError::new(io::Error::last_os_error().raw_os_error().unwrap())`.
The `.unwrap()` panics when `raw_os_error()` is `None`; the panic is embedded
as the `none` outcome.  State passing makes the read-only access explicit. -/
def OsError.last_os_error (h : Host) : Option OsError × Host :=
  let (err, h1) := IoError.last_os_error h
  (err.raw_os_error.map OsError.new, h1)

/-- `OsError::to_error`: `io::Error::from_raw_os_error(self.code)`. -/
def OsError.to_error (e : OsError) : IoError :=
  IoError.os e.code

/-- `OsError::kind`: `self.to_error().kind()`. -/
def OsError.kind (h : Host) (e : OsError) : ErrorKind :=
  (e.to_error).kind h

/-- Derived `PartialEq`/`Eq` on the single-field struct: compares the codes. -/
def OsError.beq (a b : OsError) : Bool :=
  a.code == b.code

/-- Derived `PartialOrd`/`Ord` on the single-field struct: compares the
codes with the integer ordering. -/
def OsError.cmp (a b : OsError) : Ordering :=
  compare a.code b.code

/-- Derived `Hash` on the single-field struct: feeds exactly the code to the
hasher (parameter `f`, the hasher applied to an `i32`). -/
def OsError.hashWith (f : Int → Nat) (e : OsError) : Nat :=
  f e.code

/-- `impl fmt::Debug for OsError`:
`debug_struct("OsError").field("code", code).field("kind", kind).finish()`. -/
def OsError.fmt_debug (h : Host) (e : OsError) : String :=
  "OsError \x7b code: " ++ toString e.code ++ ", kind: " ++
    (OsError.kind h e).debugStr ++ " \x7d"

/-- `impl fmt::Display for OsError`: `write!(fmt, "\x7b\x7d", self.to_error())`. -/
def OsError.fmt_display (h : Host) (e : OsError) : String :=
  IoError.display h (e.to_error)

/-- `impl TryFrom<io::Error> for OsError`: wraps the raw OS code when
present, yields the `NoOsError` marker otherwise. -/
def OsError.try_from (error : IoError) : Except NoOsError OsError :=
  match error.raw_os_error with
  | some code => Except.ok { code := code }
  | none => Except.error {}

/-- `impl Into<io::Error> for OsError`: `self.to_error()`. -/
def OsError.into (e : OsError) : IoError :=
  e.to_error

/-- A sample POSIX-like host for concrete evaluation: code 98 is
address-in-use, code 6 has no specific mapping (spec section 8); the
thread-local last error currently holds raw code 6. -/
def posixHost : Host :=
  { kindTable := [(98, ErrorKind.addrInUse), (2, ErrorKind.notFound),
      (13, ErrorKind.permissionDenied), (11, ErrorKind.wouldBlock),
      (4, ErrorKind.interrupted)]
  , strerror := fun c => "No such device or address (os error " ++ toString c ++ ")"
  , lastError := IoError.os 6 }

/-- A second POSIX-like host: same classification table as `posixHost`, but a
different last-error state and message facility. -/
def posixHost2 : Host :=
  { posixHost with
      lastError := IoError.simple ErrorKind.other "not an OS error"
    , strerror := fun c => "message " ++ toString c }

/-- C1: for every i32 code `c`, constructing an `OsError` via `new(c)` and
reading it back with `code()` returns exactly `c`. -/
theorem osError_new_code_roundtrip (c : Int) : (OsError.new c).code = c :=
  rfl

/-- C2 counterexample: the claim demands the exact string
`OsErrorValue ... code: 6, kind: Other ...`, but the struct name the code's
Debug implementation renders is `OsError`, so at code 6 on a POSIX-like host
with no specific mapping for 6 the claimed string differs from the output. -/
theorem osError_fmt_debug_name_counterexample :
    OsError.fmt_debug posixHost (OsError.new 6) ≠
      "OsErrorValue \x7b code: 6, kind: Other \x7d" := by
  decide

/-- C2 amended: for every i32 code `c` the host has no specific classification
for, `fmt_debug` of the constructed value yields the exact string
`OsError ... code: c, kind: Other ...` (struct name `OsError`, not
`OsErrorValue`), rendering both the raw code and the derived
classification. -/
theorem osError_fmt_debug_unclassified (h : Host) (c : Int)
    (hk : h.decode_error_kind c = ErrorKind.other) :
    OsError.fmt_debug h (OsError.new c) =
      "OsError \x7b code: " ++ toString c ++ ", kind: Other \x7d" := by
  have hx : ∀ X : String,
      X ++ ", kind: " ++ "Other" ++ " \x7d" = X ++ ", kind: Other \x7d" := by
    intro X
    rw [String.append_assoc, String.append_assoc]
    rfl
  simp only [OsError.fmt_debug, OsError.kind, OsError.to_error, OsError.new,
    IoError.kind, hk, ErrorKind.debugStr]
  exact hx ("OsError \x7b code: " ++ toString c)

/-- C2 witness: at code 6 on the sample POSIX-like host. -/
theorem osError_fmt_debug_unclassified_witness :
    Host.decode_error_kind posixHost 6 = ErrorKind.other ∧
    OsError.fmt_debug posixHost (OsError.new 6) =
      "OsError \x7b code: " ++ toString (6 : Int) ++ ", kind: Other \x7d" :=
  ⟨by decide, osError_fmt_debug_unclassified posixHost 6 (by decide)⟩

/-- C3: the narrowing conversion `TryFrom<io::Error> for OsError` yields
`Ok` wrapping the raw code when the source carries one, and the `NoOsError`
marker when it carries none; it is a total function, hence never panics. -/
theorem osError_try_from_spec (err : IoError) :
    (∀ c : Int, err.raw_os_error = some c →
      OsError.try_from err = Except.ok (OsError.new c)) ∧
    (err.raw_os_error = none → OsError.try_from err = Except.error {}) := by
  cases err with
  | os code =>
      refine ⟨fun c hc => ?_, fun hn => by simp [IoError.raw_os_error] at hn⟩
      simp [IoError.raw_os_error] at hc
      simp [OsError.try_from, IoError.raw_os_error, OsError.new, hc]
  | simple k msg =>
      exact ⟨fun c hc => by simp [IoError.raw_os_error] at hc,
        fun _ => by simp [OsError.try_from, IoError.raw_os_error]⟩

/-- C3 witness: conversion from an OS error with code 6 succeeds with the
wrapped code; conversion from a non-OS error fails with the marker. -/
theorem osError_try_from_spec_witness :
    OsError.try_from (IoError.os 6) = Except.ok (OsError.new 6) ∧
    OsError.try_from (IoError.simple ErrorKind.addrInUse "NoOsError") =
      Except.error {} :=
  ⟨(osError_try_from_spec (IoError.os 6)).1 6 rfl,
   (osError_try_from_spec (IoError.simple ErrorKind.addrInUse "NoOsError")).2 rfl⟩

/-- C4: `last_os_error` hits the embedded panic (`none`) iff the host
reports no raw code for the last error; when the host reports raw code `c`
it returns the `OsError` wrapping `c`; and the host state it hands back is
unchanged (read-only access). -/
theorem osError_last_os_error_spec (h : Host) :
    ((OsError.last_os_error h).1 = none ↔ h.lastError.raw_os_error = none) ∧
    (∀ c : Int, h.lastError.raw_os_error = some c →
      (OsError.last_os_error h).1 = some (OsError.new c)) ∧
    (OsError.last_os_error h).2 = h := by
  refine ⟨?_, fun c hc => ?_, rfl⟩
  · simp [OsError.last_os_error, IoError.last_os_error]
  · simp [OsError.last_os_error, IoError.last_os_error, hc]

/-- C4 witness: on the sample POSIX-like host the last error carries raw
code 6, so `last_os_error` returns the wrapper of 6 and leaves the host
unchanged. -/
theorem osError_last_os_error_spec_witness :
    (OsError.last_os_error posixHost).1 = some (OsError.new 6) ∧
    (OsError.last_os_error posixHost).2 = posixHost :=
  ⟨(osError_last_os_error_spec posixHost).2.1 6 rfl,
   (osError_last_os_error_spec posixHost).2.2⟩

/-- C5: two constructed `OsError` values are equal iff their codes are equal,
their ordering is the integer ordering of their codes, and the hash feeds
exactly the code to the hasher, so it depends only on the code. -/
theorem osError_eq_ord_hash (f : Int → Nat) (c1 c2 : Int) :
    (OsError.beq (OsError.new c1) (OsError.new c2) = true ↔ c1 = c2) ∧
    OsError.cmp (OsError.new c1) (OsError.new c2) = compare c1 c2 ∧
    (c1 = c2 →
      OsError.hashWith f (OsError.new c1) = OsError.hashWith f (OsError.new c2)) := by
  refine ⟨?_, rfl, fun hc => by simp [OsError.hashWith, OsError.new, hc]⟩
  simp [OsError.beq, OsError.new]

/-- C5 witness: at codes 5 and 5 with the absolute-value hasher. -/
theorem osError_eq_ord_hash_witness :
    OsError.beq (OsError.new 5) (OsError.new 5) = true ∧
    OsError.hashWith Int.natAbs (OsError.new 5) =
      OsError.hashWith Int.natAbs (OsError.new 5) :=
  ⟨(osError_eq_ord_hash Int.natAbs 5 5).1.mpr rfl,
   (osError_eq_ord_hash Int.natAbs 5 5).2.2 rfl⟩

/-- C6: `new` accepts every integer unchanged (it is a total Lean function,
so it never fails), and classification of a code absent from the host's
table falls back to the generic `other` category instead of failing. -/
theorem osError_new_total_kind_fallback (h : Host) (c : Int)
    (hc : h.kindTable.lookup c = none) :
    (OsError.new c).code = c ∧
    OsError.kind h (OsError.new c) = ErrorKind.other := by
  refine ⟨rfl, ?_⟩
  simp [OsError.kind, OsError.to_error, OsError.new, IoError.kind,
    Host.decode_error_kind, hc]

/-- C6 witness: code 6 is absent from the sample POSIX-like host's table and
classifies as `other`. -/
theorem osError_new_total_kind_fallback_witness :
    List.lookup (6 : Int) posixHost.kindTable = none ∧
    OsError.kind posixHost (OsError.new 6) = ErrorKind.other :=
  ⟨by decide, (osError_new_total_kind_fallback posixHost 6 (by decide)).2⟩

/-- C7: the widening conversion `Into<io::Error>` is total (always succeeds)
and the produced generic error carries the raw code, so downstream consumers
recover the original code via `raw_os_error` and the same classification via
`kind`. -/
theorem osError_into_preserves (h : Host) (e : OsError) :
    IoError.raw_os_error (OsError.into e) = some e.code ∧
    IoError.kind h (OsError.into e) = OsError.kind h e :=
  ⟨rfl, rfl⟩

/-- C8: classification is deterministic: it depends only on the code and the
host's classification table, so two runs against hosts with the same table
(whatever their last-error state or message facility) agree. -/
theorem osError_kind_deterministic (h1 h2 : Host) (c : Int)
    (ht : h1.kindTable = h2.kindTable) :
    OsError.kind h1 (OsError.new c) = OsError.kind h2 (OsError.new c) := by
  simp [OsError.kind, OsError.to_error, OsError.new, IoError.kind,
    Host.decode_error_kind, ht]

/-- C8 witness: the two sample hosts share a table and classify code 98
identically. -/
theorem osError_kind_deterministic_witness :
    OsError.kind posixHost (OsError.new 98) =
      OsError.kind posixHost2 (OsError.new 98) :=
  osError_kind_deterministic posixHost posixHost2 98 rfl

/-- C9: `fmt_display` of the value constructed from `c` equals the Display of
the host's `io::Error` built from raw code `c`, which is the host platform's
canonical message string for `c`, not a custom message. -/
theorem osError_display_canonical (h : Host) (c : Int) :
    OsError.fmt_display h (OsError.new c) = IoError.display h (IoError.os c) ∧
    IoError.display h (IoError.os c) = h.strerror c :=
  ⟨rfl, rfl⟩

/-- C10: widening an `OsError` into a generic `io::Error` and narrowing back
with `try_from` returns exactly the original value, never the `NoOsError`
failure. -/
theorem osError_into_try_from_roundtrip (e : OsError) :
    OsError.try_from (OsError.into e) = Except.ok e :=
  rfl
